import Mathlib

/-
Verification of the frame-queue / signaling layer of the webrtc-vision
frontend (frontend/src/utils/frameQueue.js and frontend/src/App.js).

Modelling conventions:
- JavaScript numbers (performance.now() clock values, processing durations,
  FPS targets) are modelled as rationals; the source only adds, subtracts,
  multiplies by the constants 0.8, 0.5, 1.5 and divides, so every comparison
  the claims depend on is exact rational arithmetic.
- Opaque payloads (image data, SDP descriptions, ICE candidate data, frame
  ids) are modelled as natural numbers supplied by the caller.
- The awaited processFunction inside dequeue is summarized by a ProcOutcome
  value: either it returned (a truthy result or null) with given start and
  end clock readings, or it threw.
-/

/-- A queued video frame. The source builds the object
{ id, data, captureTimestamp, queueTimestamp } inside FrameQueue.enqueue;
the random id string and the image payload are opaque, supplied by the
caller as naturals. -/
structure Frame where
  id : Nat
  data : Nat
  captureTimestamp : Rat
  queueTimestamp : Rat
deriving DecidableEq

/-- Mirror of the this.metrics snapshot object kept by updateMetrics. -/
structure FQMetrics where
  queueLength : Nat
  droppedFrames : Nat
  processedFrames : Nat
  dropRate : Rat
  avgProcessingTime : Rat
  targetFPS : Rat
  actualFPS : Rat
deriving DecidableEq

/-- State of the FrameQueue class (frameQueue.js, constructor lines). -/
structure FrameQueue where
  maxSize : Nat
  targetFPS : Rat
  queue : List Frame
  processing : Bool
  lastProcessTime : Rat
  frameInterval : Rat
  droppedFrames : Nat
  processedFrames : Nat
  totalFrames : Nat
  avgProcessingTime : Rat
  processingTimes : List Rat
  maxProcessingTimeHistory : Nat
  metrics : FQMetrics
deriving DecidableEq

/-- The constructor new FrameQueue(maxSize, targetFPS); the app instantiates
new FrameQueue(5, 15). frameInterval is 1000 / targetFPS. -/
def FrameQueue.init (maxSize : Nat) (targetFPS : Rat) : FrameQueue :=
  { maxSize := maxSize
    targetFPS := targetFPS
    queue := []
    processing := false
    lastProcessTime := 0
    frameInterval := 1000 / targetFPS
    droppedFrames := 0
    processedFrames := 0
    totalFrames := 0
    avgProcessingTime := 0
    processingTimes := []
    maxProcessingTimeHistory := 10
    metrics :=
      { queueLength := 0, droppedFrames := 0, processedFrames := 0,
        dropRate := 0, avgProcessingTime := 0, targetFPS := targetFPS,
        actualFPS := 0 } }

/-- calculateActualFPS: 0 with fewer than 2 samples or zero average,
otherwise min(targetFPS, 1000 / avgProcessingTime). -/
def FrameQueue.calculateActualFPS (q : FrameQueue) : Rat :=
  if q.processingTimes.length < 2 then 0
  else if q.avgProcessingTime = 0 then 0
  else min q.targetFPS (1000 / q.avgProcessingTime)

/-- updateMetrics: recompute the metrics snapshot from the live fields. -/
def FrameQueue.updateMetrics (q : FrameQueue) : FrameQueue :=
  { q with metrics :=
    { queueLength := q.queue.length
      droppedFrames := q.droppedFrames
      processedFrames := q.processedFrames
      dropRate :=
        if 0 < q.totalFrames then
          ((q.droppedFrames : Rat) / (q.totalFrames : Rat)) * 100
        else 0
      avgProcessingTime := q.avgProcessingTime
      targetFPS := q.targetFPS
      actualFPS := q.calculateActualFPS } }

/-- enqueue(frameData, captureTimestamp), with the performance.now() reading
and the fresh frame id passed in explicitly. Returns (accepted, new state).
Source order: totalFrames++ first; adaptive-thinning drop when
avgProcessingTime > frameInterval * 1.5 and the incremented totalFrames is
even; interval-gate drop when now - lastProcessTime < frameInterval * 0.8;
otherwise evict the head if the queue is full (counting it dropped) and
append the new frame. (With maxSize = 0 the source would throw while logging
the evicted frame of an empty queue; the app always uses maxSize = 5.) -/
def FrameQueue.enqueue (q0 : FrameQueue) (frameData : Nat)
    (captureTimestamp now : Rat) (freshId : Nat) : Bool × FrameQueue :=
  let q : FrameQueue := { q0 with totalFrames := q0.totalFrames + 1 }
  let timeSinceLastProcess := now - q.lastProcessTime
  if q.avgProcessingTime > q.frameInterval * (3 / 2) ∧ q.totalFrames % 2 = 0 then
    (false, FrameQueue.updateMetrics { q with droppedFrames := q.droppedFrames + 1 })
  else if timeSinceLastProcess < q.frameInterval * (4 / 5) then
    (false, FrameQueue.updateMetrics { q with droppedFrames := q.droppedFrames + 1 })
  else
    let frame : Frame :=
      { id := freshId, data := frameData,
        captureTimestamp := captureTimestamp, queueTimestamp := now }
    let q1 : FrameQueue :=
      if q.queue.length ≥ q.maxSize then
        { q with queue := q.queue.tail, droppedFrames := q.droppedFrames + 1 }
      else q
    (true, FrameQueue.updateMetrics { q1 with queue := q1.queue ++ [frame] })

/-- updateProcessingTime(time): push, shift when the history exceeds
maxProcessingTimeHistory (10), and recompute the average as sum / length. -/
def FrameQueue.updateProcessingTime (q : FrameQueue) (time : Rat) : FrameQueue :=
  let ts0 := q.processingTimes ++ [time]
  let ts := if ts0.length > q.maxProcessingTimeHistory then ts0.tail else ts0
  { q with processingTimes := ts,
           avgProcessingTime := (ts.foldl (· + ·) 0) / (ts.length : Rat) }

/-- Summary of the awaited processFunction(frame) call inside dequeue: it
either returns (hasResult says whether the value was truthy rather than
null) after running from processStart to processEnd on the performance
clock, or it throws. -/
inductive ProcOutcome where
  | ok (hasResult : Bool) (processStart processEnd : Rat)
  | threw
deriving DecidableEq

/-- The timing fields dequeue attaches to a truthy result before returning
it (result.queueLatency, result.totalLatency, result.frameId,
result.captureTimestamp). -/
structure ProcessedResult where
  frameId : Nat
  captureTimestamp : Rat
  queueLatency : Rat
  totalLatency : Rat
deriving DecidableEq

/-- Observable outcome of one dequeue invocation: the returned value (none
models a null return), whether processFunction was invoked at all, and the
state of the queue afterwards. -/
structure DequeueOut where
  result : Option ProcessedResult
  invoked : Bool
  state : FrameQueue
deriving DecidableEq

/-- dequeue(processFunction). Early null return when processing is already
set or the queue is empty. Otherwise: shift the head frame, run the process
function; on normal return record the processing time, bump
processedFrames, set lastProcessTime := processEnd, stamp the result (when
truthy) and updateMetrics; on a thrown error the catch block returns null
(no counters touched, no updateMetrics). The finally block clears the
processing flag on every full invocation. -/
def FrameQueue.dequeue (q : FrameQueue) (outcome : ProcOutcome) : DequeueOut :=
  if q.processing = true ∨ q.queue.length = 0 then
    { result := none, invoked := false, state := q }
  else
    match q.queue with
    | [] => { result := none, invoked := false, state := q }
    | frame :: rest =>
      match outcome with
      | ProcOutcome.threw =>
        { result := none, invoked := true,
          state := { q with queue := rest, processing := false } }
      | ProcOutcome.ok hasResult processStart processEnd =>
        let processingTime := processEnd - processStart
        let q1 := FrameQueue.updateProcessingTime { q with queue := rest } processingTime
        let q2 : FrameQueue :=
          { q1 with processedFrames := q1.processedFrames + 1,
                    lastProcessTime := processEnd, processing := false }
        { result :=
            if hasResult then
              some { frameId := frame.id,
                     captureTimestamp := frame.captureTimestamp,
                     queueLatency := processStart - frame.queueTimestamp,
                     totalLatency := processEnd - frame.captureTimestamp }
            else none,
          invoked := true,
          state := FrameQueue.updateMetrics q2 }

/-- getMetrics returns a copy of the snapshot. -/
def FrameQueue.getMetrics (q : FrameQueue) : FQMetrics := q.metrics

/-- setTargetFPS(fps): update targetFPS and frameInterval, then
updateMetrics. -/
def FrameQueue.setTargetFPS (q : FrameQueue) (fps : Rat) : FrameQueue :=
  FrameQueue.updateMetrics { q with targetFPS := fps, frameInterval := 1000 / fps }

/-- autoAdjustFPS: no-op with fewer than 5 samples; decrement targetFPS
(floored at 5) when avgProcessingTime > frameInterval * 1.5; else increment
(capped at 30) when avgProcessingTime < frameInterval * 0.5 and the queue
holds fewer than 2 frames. (The source also computes an unused local
maxProcessingTime.) -/
def FrameQueue.autoAdjustFPS (q : FrameQueue) : FrameQueue :=
  if q.processingTimes.length < 5 then q
  else if q.avgProcessingTime > q.frameInterval * (3 / 2) then
    q.setTargetFPS (max 5 (q.targetFPS - 1))
  else if q.avgProcessingTime < q.frameInterval * (1 / 2) ∧ q.queue.length < 2 then
    q.setTargetFPS (min 30 (q.targetFPS + 1))
  else q

/-- clear(): reset the queue and all counters, then updateMetrics. -/
def FrameQueue.clear (q : FrameQueue) : FrameQueue :=
  FrameQueue.updateMetrics
    { q with queue := [], processing := false, droppedFrames := 0,
             processedFrames := 0, totalFrames := 0, processingTimes := [],
             avgProcessingTime := 0 }

/-- One client-visible queue operation: an enqueue (with its payload, the
caller's capture timestamp, the performance.now() reading and the fresh
frame id) or a dequeue (with the process-function outcome). -/
inductive FQOp where
  | enq (frameData : Nat) (captureTimestamp now : Rat) (freshId : Nat)
  | deq (outcome : ProcOutcome)
deriving DecidableEq

/-- Apply one operation to the queue state. -/
def FrameQueue.step (q : FrameQueue) : FQOp → FrameQueue
  | FQOp.enq d c n i => (q.enqueue d c n i).2
  | FQOp.deq o => (q.dequeue o).state

/-- Run a sequence of operations left to right. -/
def FrameQueue.run (q : FrameQueue) : List FQOp → FrameQueue
  | [] => q
  | op :: ops => (q.step op).run ops

/-
ICE candidate handling (App.js: handleIceCandidate, processQueuedIceCandidates,
handleOffer, handleAnswer). The slice of application state they touch:
peerConnectionRef.current.remoteDescription, the buffer
iceCandidateQueueRef.current, and the ordered list of candidate payloads
handed to peerConnection.addIceCandidate (an external WebRTC call, assumed
to succeed; its failure is caught and only logged). SDP descriptions and
candidate payloads are opaque naturals.
-/

/-- ICE-handling slice of the application state. addedCandidates is the
order in which candidate payloads were passed to addIceCandidate. -/
structure IceState where
  remoteDescription : Option Nat
  iceCandidateQueue : List Nat
  addedCandidates : List Nat
deriving DecidableEq

/-- handleIceCandidate(message): while no remote description is applied the
candidate data is pushed onto the buffer and the handler returns; otherwise
the candidate is added to the peer connection immediately. -/
def handleIceCandidate (s : IceState) (data : Nat) : IceState :=
  if s.remoteDescription = none then
    { s with iceCandidateQueue := s.iceCandidateQueue ++ [data] }
  else
    { s with addedCandidates := s.addedCandidates ++ [data] }

/-- The while loop of processQueuedIceCandidates: shift the front of the
buffer and add it, until the buffer is empty. -/
def drainLoop : List Nat → List Nat → List Nat × List Nat
  | [], added => ([], added)
  | c :: rest, added => drainLoop rest (added ++ [c])

/-- processQueuedIceCandidates: drain the buffer front to back, adding each
candidate to the peer connection. -/
def processQueuedIceCandidates (s : IceState) : IceState :=
  let p := drainLoop s.iceCandidateQueue s.addedCandidates
  { s with iceCandidateQueue := p.1, addedCandidates := p.2 }

/-- handleOffer(message): apply the offer as the remote description, create
and send an answer (not modelled: it does not touch candidate state), then
call processQueuedIceCandidates. -/
def handleOffer (s : IceState) (desc : Nat) : IceState :=
  processQueuedIceCandidates { s with remoteDescription := some desc }

/-- handleAnswer(message): apply the answer as the remote description. The
source never calls processQueuedIceCandidates on this path. -/
def handleAnswer (s : IceState) (desc : Nat) : IceState :=
  { s with remoteDescription := some desc }

/-
Pending-offer retry (App.js: startLocalCamera stores window.pendingOffer
when sendSignalingMessage fails; ws.onopen and the initHTTPSignaling
success path retry it). The offer payload is an opaque natural; delivered
records offers whose send actually succeeded.
-/

/-- Pending-offer slice of the application state. -/
structure PendingOfferState where
  pendingOffer : Option Nat
  delivered : List Nat
deriving DecidableEq

/-- The ws.onopen retry block: wsWrapper.send returns a Bool (true when the
socket is OPEN and the message was written), and the pending offer is
deleted only when that Bool is true. -/
def wsOnOpen (s : PendingOfferState) (sendOk : Bool) : PendingOfferState :=
  match s.pendingOffer with
  | none => s
  | some m =>
    if sendOk then { pendingOffer := none, delivered := s.delivered ++ [m] }
    else s

/-- The initHTTPSignaling success-path retry block. HTTPSignaling.send is an
async function, so the expression httpSignaling.send(window.pendingOffer)
is a Promise object: the surrounding if treats it as truthy regardless of
the Bool the promise later resolves to, and window.pendingOffer is deleted
unconditionally. sendOk is the value the send promise eventually resolves
to (false when the POST fails); only then is the offer really delivered. -/
def httpSignalingConnected (s : PendingOfferState) (sendOk : Bool) :
    PendingOfferState :=
  match s.pendingOffer with
  | none => s
  | some m =>
    { pendingOffer := none,
      delivered := if sendOk then s.delivered ++ [m] else s.delivered }

/-
Remote-detection correlation (App.js: processServerDetection, its 5000 ms
timeout callback, and the detection_result branch of handleSignalingMessage;
handleDetectionResult is the fallback invoked for an unmatched result, and
it mutates application state: it pushes a latency sample into
performanceDataRef and calls setDetections/setMetrics/drawDetections).
Frame ids are opaque naturals; resolving a pending promise with the matching
message is recorded as (frameId, some frameId), a timeout resolution as
(frameId, none).
-/

/-- Remote-detection slice of the application state. pendingDetections
models the keys of window.pendingDetections (frame ids with a stored
resolve callback); resolved is the ordered log of promise resolutions;
latencySamples and lastDetections stand for the metrics and detection
state handleDetectionResult mutates. -/
structure DetectionState where
  pendingDetections : List Nat
  resolved : List (Nat × Option Nat)
  latencySamples : Nat
  lastDetections : Option Nat
deriving DecidableEq

/-- The body of processServerDetection when a signaling transport exists:
store the resolve callback under the frame id and send the detection_frame
message. -/
def processServerDetectionStart (s : DetectionState) (frameId : Nat) :
    DetectionState :=
  { s with pendingDetections := s.pendingDetections ++ [frameId] }

/-- The 5000 ms timeout callback: if the entry is still present, delete it
and resolve the promise with null. -/
def detectionTimeoutFires (s : DetectionState) (frameId : Nat) : DetectionState :=
  if frameId ∈ s.pendingDetections then
    { s with pendingDetections := s.pendingDetections.erase frameId,
             resolved := s.resolved ++ [(frameId, none)] }
  else s

/-- handleDetectionResult(result): pushes a latency sample and updates the
displayed detections and metrics. -/
def handleDetectionResult (s : DetectionState) (frameId : Nat) : DetectionState :=
  { s with latencySamples := s.latencySamples + 1,
           lastDetections := some frameId }

/-- The detection_result branch of handleSignalingMessage: if a pending
entry for the frame id exists, call its stored resolve with the message and
delete the entry; otherwise fall back to handleDetectionResult directly. -/
def detectionResultArrives (s : DetectionState) (frameId : Nat) : DetectionState :=
  if frameId ∈ s.pendingDetections then
    { s with resolved := s.resolved ++ [(frameId, some frameId)],
             pendingDetections := s.pendingDetections.erase frameId }
  else
    handleDetectionResult s frameId

/-- A concrete frame used by witness states. -/
def sampleFrame (n : Nat) : Frame :=
  { id := n, data := n, captureTimestamp := 0, queueTimestamp := 0 }

/-- A queue already holding maxSize = 5 frames, otherwise fresh. -/
def sampleFull : FrameQueue :=
  { FrameQueue.init 5 15 with
      queue := [sampleFrame 1, sampleFrame 2, sampleFrame 3,
                sampleFrame 4, sampleFrame 5] }

/-- The scenario state: a fresh FrameQueue(5, 15) after five processed
frames of 200 ms each (five updateProcessingTime(200) calls). -/
def slowState : FrameQueue :=
  FrameQueue.updateProcessingTime
    (FrameQueue.updateProcessingTime
      (FrameQueue.updateProcessingTime
        (FrameQueue.updateProcessingTime
          (FrameQueue.updateProcessingTime (FrameQueue.init 5 15) 200) 200) 200)
      200) 200

/-- A fresh FrameQueue(5, 15) after five processed frames of 1 ms each. -/
def fastState : FrameQueue :=
  FrameQueue.updateProcessingTime
    (FrameQueue.updateProcessingTime
      (FrameQueue.updateProcessingTime
        (FrameQueue.updateProcessingTime
          (FrameQueue.updateProcessingTime (FrameQueue.init 5 15) 1) 1) 1) 1) 1

/-
Helper lemmas: record-update projections of the state-returning methods.
-/

@[simp] theorem updateMetrics_queue (q : FrameQueue) :
    q.updateMetrics.queue = q.queue := rfl

@[simp] theorem updateMetrics_maxSize (q : FrameQueue) :
    q.updateMetrics.maxSize = q.maxSize := rfl

@[simp] theorem updateMetrics_processing (q : FrameQueue) :
    q.updateMetrics.processing = q.processing := rfl

@[simp] theorem updateMetrics_droppedFrames (q : FrameQueue) :
    q.updateMetrics.droppedFrames = q.droppedFrames := rfl

@[simp] theorem updateMetrics_processedFrames (q : FrameQueue) :
    q.updateMetrics.processedFrames = q.processedFrames := rfl

@[simp] theorem updateMetrics_totalFrames (q : FrameQueue) :
    q.updateMetrics.totalFrames = q.totalFrames := rfl

@[simp] theorem updateMetrics_targetFPS (q : FrameQueue) :
    q.updateMetrics.targetFPS = q.targetFPS := rfl

@[simp] theorem updateMetrics_frameInterval (q : FrameQueue) :
    q.updateMetrics.frameInterval = q.frameInterval := rfl

@[simp] theorem updateProcessingTime_queue (q : FrameQueue) (t : Rat) :
    (q.updateProcessingTime t).queue = q.queue := rfl

@[simp] theorem updateProcessingTime_maxSize (q : FrameQueue) (t : Rat) :
    (q.updateProcessingTime t).maxSize = q.maxSize := rfl

@[simp] theorem updateProcessingTime_processing (q : FrameQueue) (t : Rat) :
    (q.updateProcessingTime t).processing = q.processing := rfl

@[simp] theorem updateProcessingTime_droppedFrames (q : FrameQueue) (t : Rat) :
    (q.updateProcessingTime t).droppedFrames = q.droppedFrames := rfl

@[simp] theorem updateProcessingTime_processedFrames (q : FrameQueue) (t : Rat) :
    (q.updateProcessingTime t).processedFrames = q.processedFrames := rfl

@[simp] theorem updateProcessingTime_totalFrames (q : FrameQueue) (t : Rat) :
    (q.updateProcessingTime t).totalFrames = q.totalFrames := rfl

@[simp] theorem setTargetFPS_targetFPS (q : FrameQueue) (f : Rat) :
    (q.setTargetFPS f).targetFPS = f := rfl

/-- Claim C4: updateProcessingTime keeps the most recent (at most) 10
processing durations and the rolling average as their sum over their count;
whenever that average exceeds 1.5 times the target frame interval, an
incoming frame whose (incremented) submission count is even is dropped at
submission, counted in droppedFrames, on top of the interval gate; and in
the concrete scenario of a FrameQueue(5, 15) after five 200 ms processing
samples (target interval 1000/15, about 66.7 ms), thinning is active
(200 > 1.5 times the interval) and of two frames then submitted the first
is accepted and the second, alternate one is dropped at submission. -/
theorem adaptive_thinning (q : FrameQueue) (t : Rat) (d : Nat) (c now : Rat)
    (i : Nat) :
    (q.maxProcessingTimeHistory = 10 → q.processingTimes.length ≤ 10 →
       (q.updateProcessingTime t).processingTimes
         = (q.processingTimes ++ [t]).drop (q.processingTimes.length + 1 - 10)
       ∧ (q.updateProcessingTime t).processingTimes.length ≤ 10
       ∧ (q.updateProcessingTime t).avgProcessingTime
         = ((q.updateProcessingTime t).processingTimes.foldl (· + ·) 0)
           / ((q.updateProcessingTime t).processingTimes.length : Rat))
    ∧ (q.avgProcessingTime > q.frameInterval * (3 / 2) →
       (q.totalFrames + 1) % 2 = 0 →
       (q.enqueue d c now i).1 = false
       ∧ (q.enqueue d c now i).2.queue = q.queue
       ∧ (q.enqueue d c now i).2.droppedFrames = q.droppedFrames + 1)
    ∧ (slowState.processingTimes.length = 5
       ∧ slowState.avgProcessingTime = 200
       ∧ slowState.avgProcessingTime > slowState.frameInterval * (3 / 2)
       ∧ (slowState.enqueue 0 0 1000 0).1 = true
       ∧ ((slowState.enqueue 0 0 1000 0).2.enqueue 1 0 1001 1).1 = false
       ∧ ((slowState.enqueue 0 0 1000 0).2.enqueue 1 0 1001 1).2.droppedFrames
         = (slowState.enqueue 0 0 1000 0).2.droppedFrames + 1) := by
  refine ⟨?_, ?_, ?_⟩
  · intro hist hlen10
    unfold FrameQueue.updateProcessingTime
    rw [hist]
    dsimp only
    by_cases h : (q.processingTimes ++ [t]).length > 10
    · rw [if_pos h]
      simp only [List.length_append, List.length_cons, List.length_nil] at h
      have h10 : q.processingTimes.length = 10 := by omega
      have hdrop : q.processingTimes.length + 1 - 10 = 1 := by omega
      refine ⟨?_, ?_, rfl⟩
      · rw [hdrop, List.drop_one]
      · simp only [List.length_tail, List.length_append, List.length_cons,
          List.length_nil]
        omega
    · rw [if_neg h]
      simp only [List.length_append, List.length_cons, List.length_nil] at h
      have hdrop : q.processingTimes.length + 1 - 10 = 0 := by omega
      refine ⟨?_, ?_, rfl⟩
      · rw [hdrop, List.drop_zero]
      · simp only [List.length_append, List.length_cons, List.length_nil]
        omega
  · intro hgt hev
    simp only [FrameQueue.enqueue]
    rw [if_pos (And.intro hgt hev)]
    exact ⟨rfl, rfl, rfl⟩
  · refine ⟨?_, ?_, ?_, ?_, ?_, ?_⟩ <;>
      norm_num [slowState, FrameQueue.updateProcessingTime, FrameQueue.init,
        FrameQueue.enqueue, FrameQueue.updateMetrics, List.foldl]

/-- Witness for adaptive_thinning: the state after the scenario's first
accepted frame (submission count 1) keeps its 6th sample correctly and
thinning-drops the next, even-numbered, submission. -/
theorem adaptive_thinning_witness :
    ((slowState.enqueue 0 0 1000 0).2.updateProcessingTime 150).processingTimes
      = ((slowState.enqueue 0 0 1000 0).2.processingTimes ++ [150]).drop
          ((slowState.enqueue 0 0 1000 0).2.processingTimes.length + 1 - 10)
    ∧ ((slowState.enqueue 0 0 1000 0).2.enqueue 1 0 1001 1).1 = false := by
  have h := adaptive_thinning ((slowState.enqueue 0 0 1000 0).2) 150 1 0 1001 1
  refine ⟨(h.1 ?_ ?_).1, (h.2.1 ?_ ?_).1⟩ <;>
    norm_num [slowState, FrameQueue.updateProcessingTime, FrameQueue.init,
      FrameQueue.enqueue, FrameQueue.updateMetrics, List.foldl]

theorem autoAdjust_targetFPS_bounds (q : FrameQueue)
    (h1 : 5 ≤ q.targetFPS) (h2 : q.targetFPS ≤ 30) :
    5 ≤ q.autoAdjustFPS.targetFPS ∧ q.autoAdjustFPS.targetFPS ≤ 30 := by
  unfold FrameQueue.autoAdjustFPS
  split_ifs with ha hb hc
  · exact ⟨h1, h2⟩
  · refine ⟨?_, ?_⟩
    · simp only [setTargetFPS_targetFPS]
      exact le_max_left 5 _
    · simp only [setTargetFPS_targetFPS]
      exact max_le (by norm_num) (by linarith)
  · refine ⟨?_, ?_⟩
    · simp only [setTargetFPS_targetFPS]
      exact le_min (by norm_num) (by linarith)
    · simp only [setTargetFPS_targetFPS]
      exact min_le_left 30 _
  · exact ⟨h1, h2⟩

/-- Claim C5: with at least 5 recorded processing samples, autoAdjustFPS
decrements the target rate (floored at 5) when the rolling average exceeds
1.5 times the target interval, increments it (capped at 30) when the
average is below 0.5 times the target interval and fewer than 2 frames are
queued, and any number of repeated applications keeps a target rate that
started in the interval from 5 to 30 inside that interval. -/
theorem autoAdjustFPS_spec (q : FrameQueue) (n : Nat) :
    (5 ≤ q.processingTimes.length →
       (q.avgProcessingTime > q.frameInterval * (3 / 2) →
          q.autoAdjustFPS.targetFPS = max 5 (q.targetFPS - 1))
       ∧ (0 < q.frameInterval →
          q.avgProcessingTime < q.frameInterval * (1 / 2) →
          q.queue.length < 2 →
          q.autoAdjustFPS.targetFPS = min 30 (q.targetFPS + 1)))
    ∧ (5 ≤ q.targetFPS → q.targetFPS ≤ 30 →
       5 ≤ (FrameQueue.autoAdjustFPS^[n] q).targetFPS
       ∧ (FrameQueue.autoAdjustFPS^[n] q).targetFPS ≤ 30) := by
  constructor
  · intro hn
    constructor
    · intro hgt
      unfold FrameQueue.autoAdjustFPS
      rw [if_neg (by omega : ¬q.processingTimes.length < 5), if_pos hgt]
      rfl
    · intro hpos hlt hq2
      have hnot : ¬q.avgProcessingTime > q.frameInterval * (3 / 2) := by
        intro hgt
        linarith
      unfold FrameQueue.autoAdjustFPS
      rw [if_neg (by omega : ¬q.processingTimes.length < 5), if_neg hnot,
        if_pos (And.intro hlt hq2)]
      rfl
  · intro h5 h30
    induction n with
    | zero => exact ⟨h5, h30⟩
    | succ n ih =>
      rw [Function.iterate_succ_apply']
      exact autoAdjust_targetFPS_bounds _ ih.1 ih.2

/-- Witness for autoAdjustFPS_spec: slowState (five 200 ms samples, target
15) steps down to 14; fastState (five 1 ms samples, empty queue) steps up
to 16; forty repeated applications starting from slowState stay within 5
to 30. -/
theorem autoAdjustFPS_spec_witness :
    slowState.autoAdjustFPS.targetFPS = 14
    ∧ fastState.autoAdjustFPS.targetFPS = 16
    ∧ 5 ≤ (FrameQueue.autoAdjustFPS^[40] slowState).targetFPS
    ∧ (FrameQueue.autoAdjustFPS^[40] slowState).targetFPS ≤ 30 := by
  have h1 := autoAdjustFPS_spec slowState 40
  have h2 := autoAdjustFPS_spec fastState 0
  have hs5 : (5 : Nat) ≤ slowState.processingTimes.length := by
    norm_num [slowState, FrameQueue.updateProcessingTime, FrameQueue.init]
  have hf5 : (5 : Nat) ≤ fastState.processingTimes.length := by
    norm_num [fastState, FrameQueue.updateProcessingTime, FrameQueue.init]
  refine ⟨?_, ?_, ?_, ?_⟩
  · have e := (h1.1 hs5).1 (by
      norm_num [slowState, FrameQueue.updateProcessingTime, FrameQueue.init,
        List.foldl])
    rw [e]
    norm_num [slowState, FrameQueue.updateProcessingTime, FrameQueue.init,
      max_def]
  · have e := (h2.1 hf5).2
      (by norm_num [fastState, FrameQueue.updateProcessingTime, FrameQueue.init])
      (by norm_num [fastState, FrameQueue.updateProcessingTime, FrameQueue.init,
        List.foldl])
      (by norm_num [fastState, FrameQueue.updateProcessingTime, FrameQueue.init])
    rw [e]
    norm_num [fastState, FrameQueue.updateProcessingTime, FrameQueue.init,
      min_def]
  · exact (h1.2
      (by norm_num [slowState, FrameQueue.updateProcessingTime, FrameQueue.init])
      (by norm_num [slowState, FrameQueue.updateProcessingTime,
        FrameQueue.init])).1
  · exact (h1.2
      (by norm_num [slowState, FrameQueue.updateProcessingTime, FrameQueue.init])
      (by norm_num [slowState, FrameQueue.updateProcessingTime,
        FrameQueue.init])).2

theorem enqueue_maxSize (q : FrameQueue) (d : Nat) (c n : Rat) (i : Nat) :
    (q.enqueue d c n i).2.maxSize = q.maxSize := by
  simp only [FrameQueue.enqueue]
  split_ifs <;> rfl

theorem dequeue_maxSize (q : FrameQueue) (o : ProcOutcome) :
    (q.dequeue o).state.maxSize = q.maxSize := by
  unfold FrameQueue.dequeue
  split
  · rfl
  · split
    · rfl
    · split <;> rfl

theorem step_maxSize (q : FrameQueue) (op : FQOp) :
    (q.step op).maxSize = q.maxSize := by
  cases op with
  | enq d c n i => exact enqueue_maxSize q d c n i
  | deq o => exact dequeue_maxSize q o

theorem enqueue_length_le (q : FrameQueue) (d : Nat) (c n : Rat) (i : Nat)
    (hmax : 1 ≤ q.maxSize) (hlen : q.queue.length ≤ q.maxSize) :
    (q.enqueue d c n i).2.queue.length ≤ q.maxSize := by
  simp only [FrameQueue.enqueue]
  split_ifs with h1 h2 h3
  · simpa using hlen
  · simpa using hlen
  · simp only [ge_iff_le] at h3
    simp only [updateMetrics_queue, List.length_append, List.length_tail,
      List.length_cons, List.length_nil]
    omega
  · simp only [ge_iff_le, not_le] at h3
    simp only [updateMetrics_queue, List.length_append, List.length_cons,
      List.length_nil]
    omega

theorem dequeue_length_le (q : FrameQueue) (o : ProcOutcome) :
    (q.dequeue o).state.queue.length ≤ q.queue.length := by
  unfold FrameQueue.dequeue
  split
  · exact le_refl _
  · split
    · exact le_refl _
    · next frame rest heq =>
      cases o with
      | threw => simp [heq]
      | ok hR ps pe => simp [heq]

theorem run_length_le (q : FrameQueue) (ops : List FQOp)
    (hmax : 1 ≤ q.maxSize) (hlen : q.queue.length ≤ q.maxSize) :
    (q.run ops).queue.length ≤ (q.run ops).maxSize := by
  induction ops generalizing q with
  | nil => simpa [FrameQueue.run] using hlen
  | cons op ops ih =>
    have hms := step_maxSize q op
    have hstep : (q.step op).queue.length ≤ (q.step op).maxSize := by
      rw [hms]
      cases op with
      | enq d c n i => exact enqueue_length_le q d c n i hmax hlen
      | deq o => exact le_trans (dequeue_length_le q o) hlen
    simp only [FrameQueue.run]
    exact ih (q.step op) (by rw [hms]; exact hmax) hstep

theorem step_length_le (q : FrameQueue) (op : FQOp)
    (hmax : 1 ≤ q.maxSize) (hlen : q.queue.length ≤ q.maxSize) :
    (q.step op).queue.length ≤ (q.step op).maxSize := by
  rw [step_maxSize]
  cases op with
  | enq d c n i => exact enqueue_length_le q d c n i hmax hlen
  | deq o => exact le_trans (dequeue_length_le q o) hlen

theorem step_accounting (q : FrameQueue) (op : FQOp)
    (hmax : 1 ≤ q.maxSize) (hlen : q.queue.length ≤ q.maxSize)
    (hop : op ≠ FQOp.deq ProcOutcome.threw)
    (hacc : q.processedFrames + q.droppedFrames + q.queue.length = q.totalFrames) :
    (q.step op).processedFrames + (q.step op).droppedFrames
      + (q.step op).queue.length = (q.step op).totalFrames := by
  cases op with
  | enq d c n i =>
    simp only [FrameQueue.step, FrameQueue.enqueue]
    split_ifs with h1 h2 h3
    · simp only [updateMetrics_processedFrames, updateMetrics_droppedFrames,
        updateMetrics_queue, updateMetrics_totalFrames]
      omega
    · simp only [updateMetrics_processedFrames, updateMetrics_droppedFrames,
        updateMetrics_queue, updateMetrics_totalFrames]
      omega
    · simp only [ge_iff_le] at h3
      simp only [updateMetrics_processedFrames, updateMetrics_droppedFrames,
        updateMetrics_queue, updateMetrics_totalFrames, List.length_append,
        List.length_tail, List.length_cons, List.length_nil]
      omega
    · simp only [updateMetrics_processedFrames, updateMetrics_droppedFrames,
        updateMetrics_queue, updateMetrics_totalFrames, List.length_append,
        List.length_cons, List.length_nil]
      omega
  | deq o =>
    cases o with
    | threw => exact absurd rfl hop
    | ok hR ps pe =>
      simp only [FrameQueue.step]
      unfold FrameQueue.dequeue
      split
      · exact hacc
      · split
        · exact hacc
        · next frame rest heq =>
          have hq : q.queue.length = rest.length + 1 := by
            rw [heq, List.length_cons]
          simp only [updateMetrics_processedFrames, updateMetrics_droppedFrames,
            updateMetrics_queue, updateMetrics_totalFrames,
            updateProcessingTime_processedFrames, updateProcessingTime_droppedFrames,
            updateProcessingTime_queue, updateProcessingTime_totalFrames]
          omega

theorem run_accounting (q : FrameQueue) (ops : List FQOp)
    (hmax : 1 ≤ q.maxSize) (hlen : q.queue.length ≤ q.maxSize)
    (hops : ∀ o ∈ ops, o ≠ FQOp.deq ProcOutcome.threw)
    (hacc : q.processedFrames + q.droppedFrames + q.queue.length = q.totalFrames) :
    (q.run ops).processedFrames + (q.run ops).droppedFrames
      + (q.run ops).queue.length = (q.run ops).totalFrames := by
  induction ops generalizing q with
  | nil => simpa [FrameQueue.run] using hacc
  | cons op ops ih =>
    simp only [FrameQueue.run]
    have hms := step_maxSize q op
    refine ih (q.step op) ?_ ?_ ?_ ?_
    · rw [hms]; exact hmax
    · exact step_length_le q op hmax hlen
    · intro o ho; exact hops o (List.mem_cons_of_mem _ ho)
    · exact step_accounting q op hmax hlen (hops op (List.mem_cons_self _ _)) hacc

/-- Claim C2 counterexample: one accepted enqueue on a fresh FrameQueue(5, 15)
leaves processedFrames + droppedFrames = 0 while totalFrames = 1, because the
accepted frame is still sitting in the queue: the claimed equality fails. -/
theorem accounting_counterexample :
    ¬(((FrameQueue.init 5 15).run [FQOp.enq 0 0 1000 0]).processedFrames
        + ((FrameQueue.init 5 15).run [FQOp.enq 0 0 1000 0]).droppedFrames
        = ((FrameQueue.init 5 15).run [FQOp.enq 0 0 1000 0]).totalFrames) := by
  norm_num [FrameQueue.run, FrameQueue.step, FrameQueue.enqueue,
    FrameQueue.updateMetrics, FrameQueue.init]

/-- Claim C2 (amended): after every sequence of enqueue and dequeue
operations on a FrameQueue with maxSize at least 1 in which no dequeue's
process function throws, processedFrames + droppedFrames + the number of
frames still queued equals totalFrames: every submitted frame is processed,
a counted drop (interval gate, adaptive thinning or overflow eviction), or
still awaiting processing in the queue. (A dequeue whose process function
throws removes a frame that is counted in none of the three.) -/
theorem accounting_invariant (maxSize : Nat) (targetFPS : Rat) (ops : List FQOp)
    (hmax : 1 ≤ maxSize)
    (hops : ∀ o ∈ ops, o ≠ FQOp.deq ProcOutcome.threw) :
    ((FrameQueue.init maxSize targetFPS).run ops).processedFrames
      + ((FrameQueue.init maxSize targetFPS).run ops).droppedFrames
      + ((FrameQueue.init maxSize targetFPS).run ops).queue.length
      = ((FrameQueue.init maxSize targetFPS).run ops).totalFrames :=
  run_accounting _ ops (by simpa [FrameQueue.init] using hmax)
    (by simp [FrameQueue.init]) hops (by simp [FrameQueue.init])

/-- Witness for accounting_invariant: a concrete trace with two enqueues
and one successful dequeue. -/
theorem accounting_invariant_witness :
    (let s := (FrameQueue.init 5 15).run
      [FQOp.enq 0 0 1000 0, FQOp.deq (ProcOutcome.ok true 1000 1100),
       FQOp.enq 1 0 2000 1]
     s.processedFrames + s.droppedFrames + s.queue.length = s.totalFrames) := by
  exact accounting_invariant 5 15
    [FQOp.enq 0 0 1000 0, FQOp.deq (ProcOutcome.ok true 1000 1100),
     FQOp.enq 1 0 2000 1]
    (by norm_num)
    (by intro o ho; fin_cases ho <;> simp)

/-- Claim C1: starting from any capacity maxSize at least 1, the queue
length stays at most maxSize after every sequence of enqueue and dequeue
operations; and an enqueue that finds the queue holding exactly maxSize
frames and passes both drop gates accepts the new frame, the queue becoming
its old tail followed by the new frame, so the evicted frame is the old
head (the oldest queued frame) and never the newly submitted one. -/
theorem queue_bounded_and_evicts_oldest (maxSize : Nat) (targetFPS : Rat)
    (ops : List FQOp) (q : FrameQueue) (d : Nat) (c now : Rat) (i : Nat) :
    (1 ≤ maxSize → ((FrameQueue.init maxSize targetFPS).run ops).queue.length ≤ maxSize)
    ∧ (q.queue.length = q.maxSize →
       ¬(q.avgProcessingTime > q.frameInterval * (3 / 2)
           ∧ (q.totalFrames + 1) % 2 = 0) →
       ¬(now - q.lastProcessTime < q.frameInterval * (4 / 5)) →
       (q.enqueue d c now i).1 = true
       ∧ (q.enqueue d c now i).2.queue
         = q.queue.tail ++ [{ id := i, data := d, captureTimestamp := c,
                              queueTimestamp := now }]) := by
  constructor
  · intro hmax
    have h := run_length_le (FrameQueue.init maxSize targetFPS) ops
      (by simpa [FrameQueue.init] using hmax) (by simp [FrameQueue.init])
    have hms : ((FrameQueue.init maxSize targetFPS).run ops).maxSize = maxSize := by
      have : ∀ (s : FrameQueue) (l : List FQOp), (s.run l).maxSize = s.maxSize := by
        intro s l
        induction l generalizing s with
        | nil => rfl
        | cons op l ih => simpa [FrameQueue.run, step_maxSize] using ih (s.step op)
      simpa [FrameQueue.init] using this (FrameQueue.init maxSize targetFPS) ops
    rw [hms] at h
    exact h
  · intro hfull hng hint
    simp only [FrameQueue.enqueue]
    rw [if_neg hng, if_neg hint]
    have hge : q.queue.length ≥ q.maxSize := le_of_eq hfull.symm
    rw [if_pos hge]
    exact ⟨rfl, rfl⟩

/-- Witness for queue_bounded_and_evicts_oldest: a run of one accepted
enqueue stays within maxSize = 5, and enqueueing into sampleFull (5 frames,
capacity 5) with both gates passing evicts the old head. -/
theorem queue_bounded_and_evicts_oldest_witness :
    ((FrameQueue.init 5 15).run [FQOp.enq 0 0 1000 1]).queue.length ≤ 5
    ∧ (sampleFull.enqueue 7 0 1000 9).1 = true
    ∧ (sampleFull.enqueue 7 0 1000 9).2.queue
      = sampleFull.queue.tail ++ [{ id := 9, data := 7, captureTimestamp := 0,
                                    queueTimestamp := 1000 }] := by
  have h := queue_bounded_and_evicts_oldest 5 15 [FQOp.enq 0 0 1000 1]
    sampleFull 7 0 1000 9
  refine ⟨h.1 (by norm_num), ?_, ?_⟩
  · exact (h.2 (by norm_num [sampleFull, FrameQueue.init])
      (by norm_num [sampleFull, FrameQueue.init])
      (by norm_num [sampleFull, FrameQueue.init])).1
  · exact (h.2 (by norm_num [sampleFull, FrameQueue.init])
      (by norm_num [sampleFull, FrameQueue.init])
      (by norm_num [sampleFull, FrameQueue.init])).2

theorem enqueue_processing (q : FrameQueue) (d : Nat) (c n : Rat) (i : Nat) :
    (q.enqueue d c n i).2.processing = q.processing := by
  simp only [FrameQueue.enqueue]
  split_ifs <;> rfl

theorem dequeue_processing (q : FrameQueue) (o : ProcOutcome)
    (h : q.processing = false) :
    (q.dequeue o).state.processing = false := by
  unfold FrameQueue.dequeue
  split
  · exact h
  · split
    · exact h
    · split <;> rfl

theorem dequeue_threw_result (q : FrameQueue) :
    (q.dequeue ProcOutcome.threw).result = none := by
  unfold FrameQueue.dequeue
  split
  · rfl
  · split
    · rfl
    · rfl

theorem step_processing (q : FrameQueue) (op : FQOp) (h : q.processing = false) :
    (q.step op).processing = false := by
  cases op with
  | enq d c n i =>
    simp only [FrameQueue.step]
    rw [enqueue_processing]
    exact h
  | deq o => exact dequeue_processing q o h

theorem run_processing (q : FrameQueue) (ops : List FQOp)
    (h : q.processing = false) : (q.run ops).processing = false := by
  induction ops generalizing q with
  | nil => exact h
  | cons op ops ih => exact ih _ (step_processing q op h)

/-- Claim C10 (implicit): a dequeue invocation entered with the
single-consumer flag free always leaves it free again, whether it returns
a result, returns null, or the process function throws (and in the throw
case it returns null rather than propagating); moreover every state
reachable from a fresh queue by enqueue and dequeue operations has the flag
free, so a later dequeue can proceed. -/
theorem dequeue_releases_lock (q : FrameQueue) (o : ProcOutcome)
    (maxSize : Nat) (targetFPS : Rat) (ops : List FQOp)
    (h : q.processing = false) :
    (q.dequeue o).state.processing = false
    ∧ (o = ProcOutcome.threw → (q.dequeue o).result = none)
    ∧ ((FrameQueue.init maxSize targetFPS).run ops).processing = false := by
  refine ⟨dequeue_processing q o h, ?_, run_processing _ ops rfl⟩
  rintro rfl
  exact dequeue_threw_result q

/-- Witness for dequeue_releases_lock: a throwing dequeue on a full queue
releases the flag and returns null, and a trace ending in a throwing
dequeue leaves the flag free. -/
theorem dequeue_releases_lock_witness :
    (sampleFull.dequeue ProcOutcome.threw).state.processing = false
    ∧ (sampleFull.dequeue ProcOutcome.threw).result = none
    ∧ ((FrameQueue.init 5 15).run
        [FQOp.enq 0 0 1000 0, FQOp.deq (ProcOutcome.ok true 1000 1200),
         FQOp.deq ProcOutcome.threw]).processing = false := by
  have h := dequeue_releases_lock sampleFull ProcOutcome.threw 5 15
    [FQOp.enq 0 0 1000 0, FQOp.deq (ProcOutcome.ok true 1000 1200),
     FQOp.deq ProcOutcome.threw] rfl
  exact ⟨h.1, h.2.1 rfl, h.2.2⟩

/-- Claim C6: dequeue returns null, removes nothing and does not invoke the
process function when the queue is empty or another dequeue is in flight. -/
theorem dequeue_null_when_busy_or_empty (q : FrameQueue) (o : ProcOutcome)
    (h : q.processing = true ∨ q.queue.length = 0) :
    q.dequeue o = { result := none, invoked := false, state := q } := by
  unfold FrameQueue.dequeue
  rw [if_pos h]

/-- Witness for dequeue_null_when_busy_or_empty: a fresh empty queue. -/
theorem dequeue_null_when_busy_or_empty_witness :
    (FrameQueue.init 5 15).dequeue ProcOutcome.threw
      = { result := none, invoked := false, state := FrameQueue.init 5 15 } :=
  dequeue_null_when_busy_or_empty (FrameQueue.init 5 15) ProcOutcome.threw
    (Or.inr rfl)

/-- Claim C3: when less than 80 percent of the target frame interval has
elapsed since the last processed frame and the adaptive-thinning drop has
not fired for this call, enqueue returns false, leaves the queue unchanged
and increments droppedFrames by exactly one. -/
theorem enqueue_interval_gate (q : FrameQueue) (d : Nat) (c now : Rat) (i : Nat)
    (hng : ¬(q.avgProcessingTime > q.frameInterval * (3 / 2)
              ∧ (q.totalFrames + 1) % 2 = 0))
    (hint : now - q.lastProcessTime < q.frameInterval * (4 / 5)) :
    (q.enqueue d c now i).1 = false
    ∧ (q.enqueue d c now i).2.queue = q.queue
    ∧ (q.enqueue d c now i).2.droppedFrames = q.droppedFrames + 1 := by
  simp only [FrameQueue.enqueue]
  rw [if_neg hng, if_pos hint]
  exact ⟨rfl, rfl, rfl⟩

/-- Witness for enqueue_interval_gate: a fresh FrameQueue(5, 15) with the
clock still at 0 rejects the first frame submitted at time 0. -/
theorem enqueue_interval_gate_witness :
    ((FrameQueue.init 5 15).enqueue 0 0 0 0).1 = false
    ∧ ((FrameQueue.init 5 15).enqueue 0 0 0 0).2.queue = []
    ∧ ((FrameQueue.init 5 15).enqueue 0 0 0 0).2.droppedFrames = 0 + 1 := by
  have h := enqueue_interval_gate (FrameQueue.init 5 15) 0 0 0 0
    (by norm_num [FrameQueue.init]) (by norm_num [FrameQueue.init])
  exact h

theorem drainLoop_eq (q a : List Nat) : drainLoop q a = ([], a ++ q) := by
  induction q generalizing a with
  | nil => simp [drainLoop]
  | cons c rest ih => simp [drainLoop, ih]

/-- Claim C7 counterexample: three candidates buffered before any remote
description, followed by applying an ANSWER as the remote description,
leave all three still sitting in the buffer and none added to the peer
connection — the claimed replay on answer application does not happen
(handleAnswer never calls processQueuedIceCandidates). -/
theorem ice_not_replayed_on_answer :
    (handleAnswer
        (handleIceCandidate
          (handleIceCandidate
            (handleIceCandidate
              { remoteDescription := none, iceCandidateQueue := [],
                addedCandidates := [] } 1) 2) 3) 7).addedCandidates = []
    ∧ (handleAnswer
        (handleIceCandidate
          (handleIceCandidate
            (handleIceCandidate
              { remoteDescription := none, iceCandidateQueue := [],
                addedCandidates := [] } 1) 2) 3) 7).iceCandidateQueue
      = [1, 2, 3]
    ∧ (handleAnswer
        (handleIceCandidate
          (handleIceCandidate
            (handleIceCandidate
              { remoteDescription := none, iceCandidateQueue := [],
                addedCandidates := [] } 1) 2) 3) 7).remoteDescription
      = some 7 := by
  refine ⟨?_, ?_, ?_⟩ <;> rfl

/-- Claim C7 (amended): a candidate arriving while the remote description
is unset is appended to the buffer and never discarded; applying an OFFER
as the remote description drains the whole buffer into the peer connection
in original arrival order, leaving the buffer empty; applying an ANSWER
sets the remote description but does not drain the buffer, so candidates
buffered before an answer are retained but not replayed by handleAnswer;
in particular 3 candidates buffered before an offer application are all
added in arrival order. -/
theorem ice_buffered_and_replayed_on_offer (s : IceState) (c dsc : Nat) :
    (s.remoteDescription = none →
       (handleIceCandidate s c).iceCandidateQueue = s.iceCandidateQueue ++ [c]
       ∧ (handleIceCandidate s c).addedCandidates = s.addedCandidates)
    ∧ ((handleOffer s dsc).addedCandidates
         = s.addedCandidates ++ s.iceCandidateQueue
       ∧ (handleOffer s dsc).iceCandidateQueue = []
       ∧ (handleOffer s dsc).remoteDescription = some dsc)
    ∧ ((handleAnswer s dsc).iceCandidateQueue = s.iceCandidateQueue
       ∧ (handleAnswer s dsc).addedCandidates = s.addedCandidates)
    ∧ (handleOffer
        (handleIceCandidate
          (handleIceCandidate
            (handleIceCandidate
              { remoteDescription := none, iceCandidateQueue := [],
                addedCandidates := [] } 1) 2) 3) dsc).addedCandidates
      = [1, 2, 3] := by
  refine ⟨?_, ?_, ⟨rfl, rfl⟩, ?_⟩
  · intro hnone
    unfold handleIceCandidate
    rw [if_pos hnone]
    exact ⟨rfl, rfl⟩
  · unfold handleOffer processQueuedIceCandidates
    rw [drainLoop_eq]
    exact ⟨rfl, rfl, rfl⟩
  · unfold handleOffer processQueuedIceCandidates handleIceCandidate
    norm_num [drainLoop_eq]

/-- Witness for ice_buffered_and_replayed_on_offer: a state holding two
buffered candidates and no remote description. -/
theorem ice_buffered_and_replayed_on_offer_witness :
    (handleIceCandidate
        { remoteDescription := none, iceCandidateQueue := [4, 5],
          addedCandidates := [] } 6).iceCandidateQueue = [4, 5] ++ [6]
    ∧ (handleOffer
        { remoteDescription := none, iceCandidateQueue := [4, 5],
          addedCandidates := [] } 9).addedCandidates = [] ++ [4, 5] := by
  have h := ice_buffered_and_replayed_on_offer
    { remoteDescription := none, iceCandidateQueue := [4, 5],
      addedCandidates := [] } 6 9
  exact ⟨(h.1 rfl).1, h.2.1.1⟩

/-- Claim C8 (code-bug evaluation): at an HTTP transport-ready event with a
pending offer whose POST then fails (the async send resolves false), the
retry block clears window.pendingOffer anyway, because its if tests the
Promise returned by the async send — always truthy — rather than the Bool
it resolves to: the offer is never delivered yet can no longer be retried.
The synchronous WebSocket path, by contrast, keeps the offer when its send
returns false and clears it exactly when the send succeeded. -/
theorem pending_offer_cleared_despite_failed_send :
    (httpSignalingConnected
        { pendingOffer := some 7, delivered := [] } false).pendingOffer = none
    ∧ (httpSignalingConnected
        { pendingOffer := some 7, delivered := [] } false).delivered = []
    ∧ (wsOnOpen
        { pendingOffer := some 7, delivered := [] } false).pendingOffer = some 7
    ∧ (wsOnOpen
        { pendingOffer := some 7, delivered := [] } true).pendingOffer = none
    ∧ (wsOnOpen
        { pendingOffer := some 7, delivered := [] } true).delivered = [7] := by
  exact ⟨rfl, rfl, rfl, rfl, rfl⟩

/-- Claim C9 counterexample: after a remote-detection request for frame 0
times out (resolving null and removing the entry), a detection_result for
frame 0 arriving late is routed to the handleDetectionResult fallback,
which pushes a latency sample and updates the displayed detections — it is
not a no-op on application state. -/
theorem late_detection_result_not_noop :
    (detectionResultArrives
        (detectionTimeoutFires
          (processServerDetectionStart
            { pendingDetections := [], resolved := [], latencySamples := 0,
              lastDetections := none } 0) 0) 0).latencySamples = 1
    ∧ (detectionResultArrives
        (detectionTimeoutFires
          (processServerDetectionStart
            { pendingDetections := [], resolved := [], latencySamples := 0,
              lastDetections := none } 0) 0) 0).lastDetections = some 0
    ∧ (detectionResultArrives
        (detectionTimeoutFires
          (processServerDetectionStart
            { pendingDetections := [], resolved := [], latencySamples := 0,
              lastDetections := none } 0) 0) 0).resolved = [(0, none)]
    ∧ (detectionResultArrives
        (detectionTimeoutFires
          (processServerDetectionStart
            { pendingDetections := [], resolved := [], latencySamples := 0,
              lastDetections := none } 0) 0) 0).pendingDetections = [] := by
  exact ⟨rfl, rfl, rfl, rfl⟩

/-- Claim C9 (amended): a request whose entry is still pending when the
5000 ms timeout fires is resolved with null, appended exactly once to the
resolution log, and its entry is removed (frame ids are unique, so the
pending list is duplicate-free); a detection_result whose frame id has no
pending entry resolves nothing and touches no pending state, but is passed
to the handleDetectionResult fallback, which mutates application state
(latency metrics and displayed detections); in particular the
request-timeout-late-result trace resolves null exactly once. -/
theorem detection_timeout_resolves_once (s : DetectionState) (fid : Nat) :
    (fid ∈ s.pendingDetections → s.pendingDetections.Nodup →
       (detectionTimeoutFires s fid).resolved = s.resolved ++ [(fid, none)]
       ∧ fid ∉ (detectionTimeoutFires s fid).pendingDetections)
    ∧ (fid ∉ s.pendingDetections →
       (detectionResultArrives s fid).resolved = s.resolved
       ∧ (detectionResultArrives s fid).pendingDetections = s.pendingDetections
       ∧ (detectionResultArrives s fid).latencySamples = s.latencySamples + 1
       ∧ (detectionResultArrives s fid).lastDetections = some fid)
    ∧ ((detectionResultArrives
          (detectionTimeoutFires
            (processServerDetectionStart
              { pendingDetections := [], resolved := [], latencySamples := 0,
                lastDetections := none } fid) fid) fid).resolved
         = [(fid, none)]
       ∧ (detectionResultArrives
          (detectionTimeoutFires
            (processServerDetectionStart
              { pendingDetections := [], resolved := [], latencySamples := 0,
                lastDetections := none } fid) fid) fid).pendingDetections
         = []) := by
  refine ⟨?_, ?_, ?_⟩
  · intro hmem hnodup
    unfold detectionTimeoutFires
    rw [if_pos hmem]
    exact ⟨rfl, hnodup.not_mem_erase⟩
  · intro hmem
    unfold detectionResultArrives handleDetectionResult
    rw [if_neg hmem]
    exact ⟨rfl, rfl, rfl, rfl⟩
  · simp [processServerDetectionStart, detectionTimeoutFires,
      detectionResultArrives, handleDetectionResult]

/-- Witness for detection_timeout_resolves_once: frame 3 pending times out;
frame 0 has no pending entry and falls back to direct handling. -/
theorem detection_timeout_resolves_once_witness :
    (detectionTimeoutFires
        { pendingDetections := [3], resolved := [], latencySamples := 0,
          lastDetections := none } 3).resolved = [] ++ [(3, none)]
    ∧ (detectionResultArrives
        { pendingDetections := [3], resolved := [], latencySamples := 0,
          lastDetections := none } 0).latencySamples = 0 + 1 := by
  have h3 := detection_timeout_resolves_once
    { pendingDetections := [3], resolved := [], latencySamples := 0,
      lastDetections := none } 3
  have h0 := detection_timeout_resolves_once
    { pendingDetections := [3], resolved := [], latencySamples := 0,
      lastDetections := none } 0
  exact ⟨(h3.1 (by simp) (by simp)).1, (h0.2.1 (by simp)).2.2.1⟩
